import Mathlib

/-!
Shallow embedding of the pump control state machine and MQTT message
handling of the water-tank-pump firmware.

The main variant lives in `src/WaterTankController.ino` (class
`PumpController`, class `MqttHandler`, and the global `loop`); a second
variant of the pump controller lives in
`src/libraries/WaterTankController/src/pump/controller.cpp`.

Hardware and clock effects are made explicit:
* `millis()` readings are passed in as a `Nat` argument (`nowMs`),
* `time(nullptr)` readings are passed in as an `Int` argument
  (`currentTime`), with 0 the unsynchronized sentinel,
* `digitalWrite(RELAY_PIN, …)` calls are collected in a `List RelayEvent`,
* the debounced sensor booleans read from `waterLevel` are arguments.
-/

namespace WaterTank

/-- One `digitalWrite(RELAY_PIN, level)` side effect of a pump transition. -/
structure RelayEvent where
  level : Bool
deriving Repr, DecidableEq

/-- The member fields of `PumpController` in `src/WaterTankController.ino`
(lines 510 ff.): `_pumpState`, `_lastPumpState`, `_overrideMode`,
`_overrideState`, `_pumpLastOnAt`, `_pumpLastOffAt`, `_pumpLastOnEpoch`,
`_pumpLastOffEpoch`, `_lastPumpDuration`. -/
structure PumpControllerState where
  pumpState : Bool
  lastPumpState : Bool
  overrideMode : Bool
  overrideState : Bool
  pumpLastOnAt : Nat
  pumpLastOffAt : Nat
  pumpLastOnEpoch : Int
  pumpLastOffEpoch : Int
  lastPumpDuration : Nat
deriving Repr, DecidableEq

/-- The constructor `PumpController::PumpController()`: all fields
zero/false. -/
def initState : PumpControllerState :=
  { pumpState := false, lastPumpState := false, overrideMode := false,
    overrideState := false, pumpLastOnAt := 0, pumpLastOffAt := 0,
    pumpLastOnEpoch := 0, pumpLastOffEpoch := 0, lastPumpDuration := 0 }

/-- Model of `PumpController::setPumpState(bool state, time_t currentTime)`
(`src/WaterTankController.ino` lines 650-688).  `nowMs` stands for the
`millis()` calls inside the function.  Returns the new state together with
the relay writes performed (one if a transition occurred, none otherwise). -/
def setPumpState (s : PumpControllerState) (state : Bool) (currentTime : Int)
    (nowMs : Nat) : PumpControllerState × List RelayEvent :=
  if s.pumpState ≠ state then
    let s1 := { s with lastPumpState := s.pumpState, pumpState := state }
    if state then
      let s2 := { s1 with
        pumpLastOnAt := nowMs,
        pumpLastOnEpoch :=
          if currentTime > 1000000000 then currentTime else s1.pumpLastOnEpoch }
      (s2, [{ level := true }])
    else
      let s2 := { s1 with
        pumpLastOffAt := nowMs,
        pumpLastOffEpoch :=
          if currentTime > 1000000000 then currentTime else s1.pumpLastOffEpoch }
      let s3 :=
        if s2.pumpLastOnAt > 0 ∧ s2.pumpLastOffAt > s2.pumpLastOnAt then
          { s2 with lastPumpDuration := s2.pumpLastOffAt - s2.pumpLastOnAt }
        else s2
      (s3, [{ level := false }])
  else (s, [])

/-- Model of `PumpController::handleAutomaticControl(time_t currentTime)`
(`src/WaterTankController.ino` lines 690-717).  The debounced sensor
readings `lowWater`/`highWater` obtained from `waterLevel` are passed in. -/
def handleAutomaticControl (s : PumpControllerState) (lowWater highWater : Bool)
    (currentTime : Int) (nowMs : Nat) : PumpControllerState × List RelayEvent :=
  if !lowWater && !highWater then
    setPumpState s true currentTime nowMs
  else if highWater then
    setPumpState s false currentTime nowMs
  else (s, [])

/-- Model of `PumpController::loop()` (`src/WaterTankController.ino` lines 547-564):
one tick of the pump controller. -/
def loop (s : PumpControllerState) (lowWater highWater : Bool)
    (currentTime : Int) (nowMs : Nat) : PumpControllerState × List RelayEvent :=
  if s.overrideMode then
    if s.pumpState ≠ s.overrideState then
      setPumpState s s.overrideState currentTime nowMs
    else (s, [])
  else
    handleAutomaticControl s lowWater highWater currentTime nowMs

/-- Model of `PumpController::setOverrideMode(bool enabled, bool state)`
(`src/WaterTankController.ino` lines 566-582). -/
def setOverrideMode (s : PumpControllerState) (enabled state : Bool) :
    PumpControllerState :=
  { s with overrideMode := enabled, overrideState := state }

/-- Model of `PumpController::hasPumpStateChanged()`
(`src/WaterTankController.ino` lines 599-602). -/
def hasPumpStateChanged (s : PumpControllerState) : Bool :=
  s.pumpState != s.lastPumpState

end WaterTank

namespace WaterTank

/-- Outcome of `deserializeJson` on an inbound payload, restricted to the
two keys `MqttHandler::mqttCallback` reads: the value of `"override"`
(`none` when the key is absent) and the value of `"state"` (`none` when the
key is absent). -/
structure CommandDoc where
  override : Option Bool
  state : Option String
deriving Repr, DecidableEq

/-- Model of `MqttHandler::mqttCallback(char *topic, byte *payload, unsigned int length)`
(`src/WaterTankController.ino` lines 1224-1267), composed with the command
callback registered in `setup` (line 1802), which is
`pumpController.setOverrideMode(overrideMode, overrideState)`.

`payload = none` models a `deserializeJson` failure (early return);
`topicIsCommandTopic` models `strcmp(topic, MQTT_COMMAND_TOPIC) == 0`.
A missing `"state"` key leaves `overrideState` at its initializer `false`;
a present one compares the string against `"ON"`. -/
def mqttCallback (topicIsCommandTopic : Bool) (payload : Option CommandDoc)
    (s : PumpControllerState) : PumpControllerState :=
  match payload with
  | none => s
  | some doc =>
    if topicIsCommandTopic then
      match doc.override with
      | some overrideMode =>
        let overrideState :=
          match doc.state with
          | some str => str == "ON"
          | none => false
        setOverrideMode s overrideMode overrideState
      | none => s
    else s

/-- The JSON object built by `MqttHandler::publishPumpStatus`
(`src/WaterTankController.ino` lines 923-973): `Option` fields are the
keys that the function only conditionally adds to the document. -/
structure PumpStatusPayload where
  state : String
  last_on : Option String
  last_off : Option String
  runtime_last_on : Nat
  runtime_last_off : Nat
  last_duration_seconds : Option Nat
  last_duration_ms : Option Nat
deriving Repr, DecidableEq

/-- Model of `MqttHandler::publishPumpStatus(...)` (`src/WaterTankController.ino`
lines 923-973).  `connected` models `_client.connected()` (not connected:
early return, nothing published, result `none`); `fmt` models
`formatISO8601` (which returns `false` on a `gmtime` or `snprintf`
failure, hence `Option String`). -/
def publishPumpStatus (connected : Bool) (fmt : Int → Option String)
    (pumpState : Bool) (lastOnTime lastOffTime : Nat)
    (lastOnEpoch lastOffEpoch : Int) (lastDuration : Nat) :
    Option PumpStatusPayload :=
  if !connected then none
  else
    some
      { state := if pumpState then "ON" else "OFF"
        last_on := if lastOnEpoch > 1000000000 then fmt lastOnEpoch else none
        last_off := if lastOffEpoch > 1000000000 then fmt lastOffEpoch else none
        runtime_last_on := lastOnTime
        runtime_last_off := lastOffTime
        last_duration_seconds :=
          if lastDuration > 0 then some (lastDuration / 1000) else none
        last_duration_ms :=
          if lastDuration > 0 then some lastDuration else none }

/-- The pump-related slice of the global `loop()`
(`src/WaterTankController.ino` lines 1820-1848): run
`pumpController.loop()`, then, when `pumpController.hasPumpStateChanged()`,
call `mqttClient.publishPumpStatus` with the controller's getters.
Returns the controller state after the iteration, the relay writes, and
the published payload (`none` when no publish happened). -/
def mainLoopPumpPhase (s : PumpControllerState) (lowWater highWater : Bool)
    (currentTime : Int) (nowMs : Nat) (connected : Bool)
    (fmt : Int → Option String) :
    PumpControllerState × List RelayEvent × Option PumpStatusPayload :=
  let r := loop s lowWater highWater currentTime nowMs
  let s1 := r.1
  let pub :=
    if hasPumpStateChanged s1 then
      publishPumpStatus connected fmt s1.pumpState s1.pumpLastOnAt
        s1.pumpLastOffAt s1.pumpLastOnEpoch s1.pumpLastOffEpoch
        s1.lastPumpDuration
    else none
  (s1, r.2, pub)

/-- Run a sequence of controller ticks; record, for each tick, the pump
state after the tick and the relay writes it performed.  Each input is
`(lowWater, highWater, currentTime, nowMs)`. -/
def runTicks (s : PumpControllerState)
    (inputs : List (Bool × Bool × Int × Nat)) : List (Bool × List RelayEvent) :=
  match inputs with
  | [] => []
  | (low, high, ct, ms) :: rest =>
    let r := loop s low high ct ms
    (r.1.pumpState, r.2) :: runTicks r.1 rest

end WaterTank

namespace WaterTankLib

/-- The member fields of `PumpController` in
`src/libraries/WaterTankController/src/pump/controller.cpp` (this variant
keeps no run-duration field). -/
structure PumpControllerState where
  pumpState : Bool
  lastPumpState : Bool
  overrideMode : Bool
  overrideState : Bool
  pumpLastOnAt : Nat
  pumpLastOffAt : Nat
  pumpLastOnEpoch : Int
  pumpLastOffEpoch : Int
deriving Repr, DecidableEq

/-- The library variant's constructor: all fields zero/false. -/
def initState : PumpControllerState :=
  { pumpState := false, lastPumpState := false, overrideMode := false,
    overrideState := false, pumpLastOnAt := 0, pumpLastOffAt := 0,
    pumpLastOnEpoch := 0, pumpLastOffEpoch := 0 }

/-- Model of `PumpController::setPumpState` of the library variant
(`src/libraries/WaterTankController/src/pump/controller.cpp`): no
`_lastPumpState` save and no duration computation. -/
def setPumpState (s : PumpControllerState) (state : Bool) (currentTime : Int)
    (nowMs : Nat) : PumpControllerState × List WaterTank.RelayEvent :=
  if s.pumpState ≠ state then
    let s1 := { s with pumpState := state }
    if state then
      ({ s1 with
          pumpLastOnAt := nowMs,
          pumpLastOnEpoch :=
            if currentTime > 1000000000 then currentTime
            else s1.pumpLastOnEpoch },
        [{ level := true }])
    else
      ({ s1 with
          pumpLastOffAt := nowMs,
          pumpLastOffEpoch :=
            if currentTime > 1000000000 then currentTime
            else s1.pumpLastOffEpoch },
        [{ level := false }])
  else (s, [])

/-- Model of `PumpController::handleAutomaticControl` of the library variant
(`src/libraries/WaterTankController/src/pump/controller.cpp` lines
121-141): pump ON when `lowWater && !highWater`, OFF when `highWater`,
otherwise keep the current state. -/
def handleAutomaticControl (s : PumpControllerState) (lowWater highWater : Bool)
    (currentTime : Int) (nowMs : Nat) :
    PumpControllerState × List WaterTank.RelayEvent :=
  if lowWater && !highWater then
    setPumpState s true currentTime nowMs
  else if highWater then
    setPumpState s false currentTime nowMs
  else (s, [])

end WaterTankLib

namespace WaterTank

lemma setPumpState_fst_pumpState (s : PumpControllerState) (st : Bool)
    (ct : Int) (ms : Nat) : (setPumpState s st ct ms).1.pumpState = st := by
  unfold setPumpState
  by_cases h : s.pumpState = st
  · simp [h]
  · cases st <;> simp [h] <;> split_ifs <;> rfl

lemma setPumpState_eq_self (s : PumpControllerState) (st : Bool) (ct : Int)
    (ms : Nat) (h : s.pumpState = st) : setPumpState s st ct ms = (s, []) := by
  unfold setPumpState
  simp [h]

lemma setPumpState_snd_of_ne (s : PumpControllerState) (st : Bool) (ct : Int)
    (ms : Nat) (h : s.pumpState ≠ st) :
    (setPumpState s st ct ms).2 = [{ level := st }] := by
  unfold setPumpState
  cases st <;> simp [h] <;> split_ifs <;> rfl

lemma setPumpState_spec (s : PumpControllerState) (st : Bool) (ct : Int)
    (ms : Nat) :
    (setPumpState s st ct ms).2.length ≤ 1 ∧
      ((setPumpState s st ct ms).1.pumpState = s.pumpState ∨
        (setPumpState s st ct ms).2.length = 1) := by
  by_cases h : s.pumpState = st
  · rw [setPumpState_eq_self s st ct ms h]
    simp
  · rw [setPumpState_snd_of_ne s st ct ms h]
    simp

end WaterTank

namespace WaterTank

lemma setPumpState_fst_overrideMode (s : PumpControllerState) (st : Bool)
    (ct : Int) (ms : Nat) :
    (setPumpState s st ct ms).1.overrideMode = s.overrideMode := by
  unfold setPumpState
  by_cases h : s.pumpState = st
  · simp [h]
  · cases st <;> simp [h] <;> split_ifs <;> rfl

lemma setPumpState_fst_overrideState (s : PumpControllerState) (st : Bool)
    (ct : Int) (ms : Nat) :
    (setPumpState s st ct ms).1.overrideState = s.overrideState := by
  unfold setPumpState
  by_cases h : s.pumpState = st
  · simp [h]
  · cases st <;> simp [h] <;> split_ifs <;> rfl

lemma loop_fst_overrideMode (s : PumpControllerState) (low high : Bool)
    (ct : Int) (ms : Nat) :
    (loop s low high ct ms).1.overrideMode = s.overrideMode := by
  unfold loop handleAutomaticControl
  split_ifs <;> first | rfl | rw [setPumpState_fst_overrideMode]

/-- Forget the stored override target (`_overrideState`).  Two controller
states with the same erasure differ at most in the stored target. -/
def eraseOverrideTarget (s : PumpControllerState) : PumpControllerState :=
  { s with overrideState := false }

lemma setPumpState_erase (s : PumpControllerState) (st : Bool) (ct : Int)
    (ms : Nat) :
    setPumpState (eraseOverrideTarget s) st ct ms =
      (eraseOverrideTarget (setPumpState s st ct ms).1,
        (setPumpState s st ct ms).2) := by
  cases s
  simp only [setPumpState, eraseOverrideTarget]
  split_ifs <;> rfl

lemma handleAutomaticControl_erase (s : PumpControllerState)
    (low high : Bool) (ct : Int) (ms : Nat) :
    handleAutomaticControl (eraseOverrideTarget s) low high ct ms =
      (eraseOverrideTarget (handleAutomaticControl s low high ct ms).1,
        (handleAutomaticControl s low high ct ms).2) := by
  unfold handleAutomaticControl
  split_ifs <;> first | rw [setPumpState_erase] | rfl

lemma loop_erase (s : PumpControllerState) (low high : Bool) (ct : Int)
    (ms : Nat) (h : s.overrideMode = false) :
    loop (eraseOverrideTarget s) low high ct ms =
      (eraseOverrideTarget (loop s low high ct ms).1,
        (loop s low high ct ms).2) := by
  unfold loop
  have hm : (eraseOverrideTarget s).overrideMode = false := h
  rw [h, hm]
  simp only [Bool.false_eq_true, if_false]
  exact handleAutomaticControl_erase s low high ct ms

lemma eraseOverrideTarget_pumpState (s : PumpControllerState) :
    (eraseOverrideTarget s).pumpState = s.pumpState := rfl

lemma runTicks_congr (inputs : List (Bool × Bool × Int × Nat)) :
    ∀ s1 s2 : PumpControllerState, s1.overrideMode = false →
      s2.overrideMode = false →
      eraseOverrideTarget s1 = eraseOverrideTarget s2 →
      runTicks s1 inputs = runTicks s2 inputs := by
  induction inputs with
  | nil => intro s1 s2 _ _ _; rfl
  | cons i rest ih =>
    intro s1 s2 h1 h2 he
    obtain ⟨low, high, ct, ms⟩ := i
    have hl : loop (eraseOverrideTarget s1) low high ct ms =
        loop (eraseOverrideTarget s2) low high ct ms := by rw [he]
    rw [loop_erase s1 low high ct ms h1, loop_erase s2 low high ct ms h2] at hl
    have hfst := congrArg Prod.fst hl
    have hsnd := congrArg Prod.snd hl
    simp only [Prod.fst, Prod.snd] at hfst hsnd
    have hps : (loop s1 low high ct ms).1.pumpState =
        (loop s2 low high ct ms).1.pumpState := by
      rw [← eraseOverrideTarget_pumpState, hfst, eraseOverrideTarget_pumpState]
    simp only [runTicks]
    rw [hps, hsnd,
      ih (loop s1 low high ct ms).1 (loop s2 low high ct ms).1
        (by rw [loop_fst_overrideMode]; exact h1)
        (by rw [loop_fst_overrideMode]; exact h2) hfst]

end WaterTank

namespace WaterTank

lemma handleAutomaticControl_fst_pumpState (s : PumpControllerState)
    (low high : Bool) (ct : Int) (ms : Nat) :
    (handleAutomaticControl s low high ct ms).1.pumpState =
      if !low && !high then true else if high then false else s.pumpState := by
  unfold handleAutomaticControl
  cases low <;> cases high <;> simp [setPumpState_fst_pumpState]

end WaterTank

namespace WaterTankLib

lemma lib_setPumpState_fst_pumpState (s : PumpControllerState) (st : Bool)
    (ct : Int) (ms : Nat) : (setPumpState s st ct ms).1.pumpState = st := by
  unfold setPumpState
  by_cases h : s.pumpState = st
  · simp [h]
  · cases st <;> simp [h]

lemma lib_handleAutomaticControl_fst_pumpState (s : PumpControllerState)
    (low high : Bool) (ct : Int) (ms : Nat) :
    (handleAutomaticControl s low high ct ms).1.pumpState =
      if low && !high then true else if high then false else s.pumpState := by
  unfold handleAutomaticControl
  cases low <;> cases high <;> simp [lib_setPumpState_fst_pumpState]

end WaterTankLib

namespace WaterTank

/-- C1: with override mode disabled, one tick of the pump controller
(`PumpController::loop` via `handleAutomaticControl`) sets `isOn` by the
priority-ordered rule: high sensor active → OFF; else low sensor inactive
→ ON; else keep the current value. -/
theorem C1_automatic_priority (s : PumpControllerState) (low high : Bool)
    (ct : Int) (ms : Nat) (h : s.overrideMode = false) :
    (loop s low high ct ms).1.pumpState =
      (if high then false else if low then s.pumpState else true) := by
  unfold loop
  rw [h]
  simp only [Bool.false_eq_true, if_false]
  rw [handleAutomaticControl_fst_pumpState]
  cases low <;> cases high <;> simp

/-- Witness for C1 at a concrete input: both sensors dry from the initial
state turns the pump on. -/
theorem C1_automatic_priority_witness :
    (loop initState false false 0 5).1.pumpState =
      (if false then false else if false then initState.pumpState else true) :=
  C1_automatic_priority initState false false 0 5 rfl

/-- C2: after `setOverrideMode(true, t)`, the next single tick makes
`isOn = t` regardless of the sensor values (the tick's whole result is
independent of the sensors), and it performs exactly one transition when
`isOn` differed from `t` and none otherwise. -/
theorem C2_override_forces_target (s : PumpControllerState) (t : Bool)
    (low1 high1 low2 high2 : Bool) (ct : Int) (ms : Nat) :
    (loop (setOverrideMode s true t) low1 high1 ct ms).1.pumpState = t ∧
    loop (setOverrideMode s true t) low1 high1 ct ms =
      loop (setOverrideMode s true t) low2 high2 ct ms ∧
    (loop (setOverrideMode s true t) low1 high1 ct ms).2.length =
      (if s.pumpState ≠ t then 1 else 0) := by
  have hmode : (setOverrideMode s true t).overrideMode = true := rfl
  refine ⟨?_, ?_, ?_⟩
  · unfold loop
    rw [hmode]
    have h2 : (setOverrideMode s true t).overrideState = t := rfl
    by_cases h : (setOverrideMode s true t).pumpState = (setOverrideMode s true t).overrideState
    · simp [h, h2]
    · rw [h2] at h
      simp [h, h2, setPumpState_fst_pumpState]
  · unfold loop
    rw [hmode]
    simp
  · unfold loop
    rw [hmode]
    by_cases h : s.pumpState = t
    · have h' : (setOverrideMode s true t).pumpState = (setOverrideMode s true t).overrideState := h
      simp [h', h]
    · have h' : (setOverrideMode s true t).pumpState ≠ (setOverrideMode s true t).overrideState := h
      simp only [ne_eq, h', not_false_eq_true, if_true, if_pos]
      rw [setPumpState_snd_of_ne _ _ _ _ h']
      simp [h]

/-- C4: one call of `PumpController::loop` performs at most one pump-state
transition: at most one relay write happens, and if `isOn` changed during
the call then exactly one transition (with its side effects) occurred. -/
theorem C4_at_most_one_transition (s : PumpControllerState)
    (low high : Bool) (ct : Int) (ms : Nat) :
    (loop s low high ct ms).2.length ≤ 1 ∧
    ((loop s low high ct ms).1.pumpState = s.pumpState ∨
      (loop s low high ct ms).2.length = 1) := by
  unfold loop handleAutomaticControl
  split_ifs <;>
    first
      | exact setPumpState_spec s _ ct ms
      | exact ⟨Nat.zero_le 1, Or.inl rfl⟩

/-- C5: an OFF transition taken at monotonic time `T2` from an ON state
whose last ON timestamp is `T1 = s.pumpLastOnAt` stores
`lastPumpDuration = T2 - T1` exactly when `T1` is nonzero and `T1 < T2`;
otherwise the stored duration is left untouched. -/
theorem C5_duration_computation (s : PumpControllerState) (ct : Int)
    (T2 : Nat) (hOn : s.pumpState = true) :
    ((0 < s.pumpLastOnAt ∧ s.pumpLastOnAt < T2) →
      (setPumpState s false ct T2).1.lastPumpDuration = T2 - s.pumpLastOnAt) ∧
    (¬(0 < s.pumpLastOnAt ∧ s.pumpLastOnAt < T2) →
      (setPumpState s false ct T2).1.lastPumpDuration = s.lastPumpDuration) := by
  by_cases hc : 0 < s.pumpLastOnAt ∧ s.pumpLastOnAt < T2
  · exact ⟨fun _ => by simp [setPumpState, hOn, hc.1, hc.2],
      fun hn => absurd hc hn⟩
  · exact ⟨fun hp => absurd hp hc,
      fun _ => by simp [setPumpState, hOn, hc]⟩

/-- Witness for C5: a pump that went ON at monotonic time 5 and OFF at
monotonic time 12 records a run duration of 7 ms. -/
theorem C5_duration_computation_witness :
    (setPumpState
      { pumpState := true, lastPumpState := false, overrideMode := false,
        overrideState := false, pumpLastOnAt := 5, pumpLastOffAt := 0,
        pumpLastOnEpoch := 0, pumpLastOffEpoch := 0, lastPumpDuration := 0 }
      false 0 12).1.lastPumpDuration = 7 :=
  (C5_duration_computation
    { pumpState := true, lastPumpState := false, overrideMode := false,
      overrideState := false, pumpLastOnAt := 5, pumpLastOffAt := 0,
      pumpLastOnEpoch := 0, pumpLastOffEpoch := 0, lastPumpDuration := 0 }
    0 12 rfl).1 (by decide)

end WaterTank

/-- C3 fails: at the input low inactive, high inactive, pump currently OFF,
the `.ino` automatic logic turns the pump ON while the library variant
leaves it OFF — the two embedded decision functions are not equal. -/
theorem C3_counterexample :
    (WaterTank.handleAutomaticControl WaterTank.initState false false 0 0).1.pumpState
        = true ∧
    (WaterTankLib.handleAutomaticControl WaterTankLib.initState false false 0 0).1.pumpState
        = false := by
  constructor <;> rfl

/-- C3 amended: the `.ino` automatic decision and the library variant's
automatic decision agree on a sensor/state combination exactly when the
high sensor is active or the pump is currently ON; whenever the high
sensor is inactive and the pump is OFF they disagree (the `.ino` variant
turns the pump ON when the low probe is dry, the library variant when it
is wet). -/
theorem C3_amended_agreement (s : WaterTank.PumpControllerState)
    (t : WaterTankLib.PumpControllerState) (low high : Bool) (ct : Int)
    (ms : Nat) (h : s.pumpState = t.pumpState) :
    ((WaterTank.handleAutomaticControl s low high ct ms).1.pumpState =
        (WaterTankLib.handleAutomaticControl t low high ct ms).1.pumpState) ↔
      (high = true ∨ s.pumpState = true) := by
  rw [WaterTank.handleAutomaticControl_fst_pumpState,
    WaterTankLib.lib_handleAutomaticControl_fst_pumpState, ← h]
  cases low <;> cases high <;> cases hs : s.pumpState <;> simp

/-- Witness for C3 amended: low active, high inactive, pump OFF is a
disagreement point. -/
theorem C3_amended_agreement_witness :
    ((WaterTank.handleAutomaticControl WaterTank.initState true false 0 0).1.pumpState =
        (WaterTankLib.handleAutomaticControl WaterTankLib.initState true false 0 0).1.pumpState) ↔
      (false = true ∨ WaterTank.initState.pumpState = true) :=
  C3_amended_agreement WaterTank.initState WaterTankLib.initState true false 0 0 rfl

namespace WaterTank

/-- C6: the epoch timestamps are written by `setPumpState` only when the
supplied wall-clock value exceeds 1000000000, and `publishPumpStatus`
includes `last_on`/`last_off` in the payload only when the corresponding
stored epoch exceeds 1000000000 (with an unsynchronized epoch the field is
absent). -/
theorem C6_epoch_sanity (s : PumpControllerState) (st : Bool) (ct : Int)
    (ms : Nat) (connected : Bool) (fmt : Int → Option String) (ps : Bool)
    (lon loff : Nat) (eOn eOff : Int) (dur : Nat) :
    (ct ≤ 1000000000 →
      (setPumpState s st ct ms).1.pumpLastOnEpoch = s.pumpLastOnEpoch ∧
      (setPumpState s st ct ms).1.pumpLastOffEpoch = s.pumpLastOffEpoch) ∧
    (∀ p, publishPumpStatus connected fmt ps lon loff eOn eOff dur = some p →
      (p.last_on ≠ none → eOn > 1000000000) ∧
      (p.last_off ≠ none → eOff > 1000000000) ∧
      (eOn ≤ 1000000000 → p.last_on = none) ∧
      (eOff ≤ 1000000000 → p.last_off = none)) := by
  constructor
  · intro hct
    have hct' : ¬(ct > 1000000000) := not_lt.mpr hct
    by_cases h : s.pumpState = st
    · rw [setPumpState_eq_self s st ct ms h]
      exact ⟨rfl, rfl⟩
    · cases st <;> simp [setPumpState, h, hct'] <;> split_ifs <;>
        exact ⟨rfl, rfl⟩
  · intro p hp
    unfold publishPumpStatus at hp
    cases connected with
    | false => simp at hp
    | true =>
      simp only [Bool.not_true, Bool.false_eq_true, if_false] at hp
      obtain rfl : _ = p := Option.some_injective _ hp
      refine ⟨?_, ?_, ?_, ?_⟩
      · intro hne
        by_contra hle
        simp [hle] at hne
      · intro hne
        by_contra hle
        simp [hle] at hne
      · intro hle
        simp [not_lt.mpr hle]
      · intro hle
        simp [not_lt.mpr hle]

/-- Witness for C6: an OFF→ON transition with an unsynchronized clock
(`ct = 5`) leaves both epoch fields at 0, and a publish with small stored
epochs omits both `last_on` and `last_off`. -/
theorem C6_epoch_sanity_witness :
    (setPumpState initState true 5 3).1.pumpLastOnEpoch = 0 ∧
    (setPumpState initState true 5 3).1.pumpLastOffEpoch = 0 ∧
    (∃ p, publishPumpStatus true (fun _ => none) true 1 2 7 8 0 = some p ∧
      p.last_on = none ∧ p.last_off = none) := by
  have h := C6_epoch_sanity initState true 5 3 true (fun _ => none) true 1 2 7 8 0
  have h1 := h.1 (by norm_num)
  refine ⟨h1.1, h1.2, ?_⟩
  refine ⟨_, rfl, ?_, ?_⟩
  · exact (h.2 _ rfl).2.2.1 (by norm_num)
  · exact (h.2 _ rfl).2.2.2 (by norm_num)

/-- C7 fails on the code: `_lastPumpState` is written only inside
`setPumpState` (to the pre-transition value) and no caller ever resets it,
so after the first transition `hasPumpStateChanged()` stays `true` on every
later iteration even though the main loop already published the pump
status; the "changed" flag is never consumed and cleared.  Scenario:
override to ON from the initial state, tick and publish (iteration 1),
then an identical iteration with no transition still sees the flag set and
publishes again. -/
theorem C7_change_flag_never_cleared :
    (mainLoopPumpPhase (setOverrideMode initState true true) true false 0 100
        true (fun _ => none)).2.2.isSome = true ∧
    hasPumpStateChanged
        (mainLoopPumpPhase (setOverrideMode initState true true) true false 0 100
          true (fun _ => none)).1 = true ∧
    (mainLoopPumpPhase
        (mainLoopPumpPhase (setOverrideMode initState true true) true false 0 100
          true (fun _ => none)).1 true false 0 200 true (fun _ => none)).2.1 = [] ∧
    hasPumpStateChanged
        (mainLoopPumpPhase
          (mainLoopPumpPhase (setOverrideMode initState true true) true false 0 100
            true (fun _ => none)).1 true false 0 200 true (fun _ => none)).1 = true ∧
    (mainLoopPumpPhase
        (mainLoopPumpPhase (setOverrideMode initState true true) true false 0 100
          true (fun _ => none)).1 true false 0 200 true (fun _ => none)).2.2.isSome
      = true := by
  refine ⟨rfl, rfl, rfl, rfl, rfl⟩

/-- C8: an inbound MQTT message whose payload fails JSON deserialization,
or a well-formed message on a topic other than the command topic, leaves
the whole controller state (override mode, override target, pump state)
unchanged and invokes no command callback. -/
theorem C8_malformed_dropped (topicIsCommandTopic : Bool)
    (s : PumpControllerState) (d : CommandDoc) :
    mqttCallback topicIsCommandTopic none s = s ∧
    mqttCallback false (some d) s = s := by
  exact ⟨rfl, by simp [mqttCallback]⟩

/-- C9: two inbound command messages that both carry `"override": false`
and differ only in their `"state"` field lead to identical subsequent
behavior: the pump state after every later tick and every relay write
coincide run-for-run, for every sequence of sensor readings and clock
values. -/
theorem C9_state_ignored_without_override (s : PumpControllerState)
    (st1 st2 : Option String) (inputs : List (Bool × Bool × Int × Nat)) :
    runTicks (mqttCallback true (some { override := some false, state := st1 }) s)
        inputs =
      runTicks (mqttCallback true (some { override := some false, state := st2 }) s)
        inputs := by
  apply runTicks_congr inputs
  · cases st1 <;> rfl
  · cases st2 <;> rfl
  · cases st1 <;> cases st2 <;> rfl

/-- C10: a command on the command topic with `"override": true` and no
`"state"` key enables override mode with target OFF (the missing field
defaults to `false`), so the next tick drives the pump OFF regardless of
the prior pump state, the previously stored override target, and the
sensors. -/
theorem C10_missing_state_defaults_off (s : PumpControllerState)
    (low high : Bool) (ct : Int) (ms : Nat) :
    (mqttCallback true (some { override := some true, state := none }) s).overrideMode
        = true ∧
    (mqttCallback true (some { override := some true, state := none }) s).overrideState
        = false ∧
    (loop (mqttCallback true (some { override := some true, state := none }) s)
        low high ct ms).1.pumpState = false := by
  refine ⟨rfl, rfl, ?_⟩
  unfold loop
  by_cases h : s.pumpState = false
  · simp [mqttCallback, setOverrideMode, h]
  · simp [mqttCallback, setOverrideMode, h, setPumpState_fst_pumpState]

end WaterTank
